import Mathlib

/-!
Shallow embedding of the seed-state / reconciliation core of the
`fuzzing_cli.fuzz.rpc.rpc` module (class `RPCClient`).

Modelling conventions:
* JSON-RPC transport is modelled by a `Node` record: the `latest` block, a
  block-by-number table `blockAt`, and the `eth_getCode` response table
  `codeAt` (`none` models a JSON `null` result).
* Python dicts holding transactions are modelled as association lists
  `List (String × Option String)`; a value `none` models JSON `null`.
* `mk_contract_address` lives outside the embedded module; the reconciliation
  functions take it as an explicit parameter `derive` (creator address
  without the `0x` marker, parsed nonce), exactly as the code treats it as a
  black box.
* The artifact resolver (`IDEArtifacts`) is external; it is modelled by a
  record with `getContract` (bytecode → metadata) and `normalizePath`.
* Python exceptions become an `Except Err` result; the constructors of `Err`
  mirror the distinct exception sites of the module.
-/

/-- Association-list model of a Python dict holding a JSON transaction
object; `none` values model JSON `null`. -/
abbrev TxDict := List (String × Option String)

/-- Reading `txn[key]` as the code does on normalized transactions: a missing
key or a `null` value reads as the empty string (both are falsy in Python,
which is the only way the reconciliation code inspects these fields). -/
def getStr (d : TxDict) (k : String) : String :=
  match d with
  | [] => ""
  | (q, v) :: rest => if q = k then v.getD "" else getStr rest k

/-- Block object as returned by `eth_getBlockByNumber(_, True)`; the block
number is kept in its wire form (a hex string) because the code compares it
as a string against the skip set and parses it with `int(_, 16)`. -/
structure EVMBlock where
  number : String
  miner : String
  difficulty : String
  gasLimit : String
  timestamp : String
  transactions : List TxDict
deriving DecidableEq

/-- The RPC node together with the client configuration (`rpc_url`,
`number_of_cores`): `latest` is the `eth_getBlockByNumber("latest", true)`
response, `blockAt i` the response for block `i`, `codeAt a` the
`eth_getCode(a, "latest")` response (`none` models a `null` result). -/
structure Node where
  rpcUrl : String
  numberOfCores : Nat
  latest : Option EVMBlock
  blockAt : Nat → Option EVMBlock
  codeAt : String → Option String

/-- Contract metadata returned by the artifact resolver
(`IDEArtifacts.get_contract`); both fields are optional dict entries. -/
structure Contract where
  mainSourceFile : Option String
  contractName : Option String
deriving DecidableEq

/-- External artifact resolver (`IDEArtifacts`): bytecode lookup and path
normalization. -/
structure Artifacts where
  getContract : String → Option Contract
  normalizePath : String → String

/-- Analysis-setup section of the seed state. -/
structure AnalysisSetup where
  addressUnderTest : String
  steps : List TxDict
  otherAddresses : Option (List String)
  target : Option String
  suggestedSeedSeqs : Option (List (List TxDict))
deriving DecidableEq

/-- Seed-state document (`discovery-probability-threshold` is the float
constant `0.0` in the source; it is modelled as the rational `0`). -/
structure SeedState where
  discoveryProbabilityThreshold : ℚ
  assertionCheckingMode : Nat
  numCores : Nat
  setup : AnalysisSetup
deriving DecidableEq

/-- Recorded fuzzing lesson: a description and groups of seed-sequence
transactions (each carrying a `blockNumber` field). -/
structure Lesson where
  description : String
  transactions : List (List TxDict)
deriving DecidableEq

/-- Error kinds of the module, one constructor per distinct raise site. -/
inductive Err where
  | scanBound (msg : String)
  | pyError (msg : String)
  | usageGeneric (msg : String)
  | emptyHistory (msg : String)
  | configError (msg : String)
  | unknownTargets (addrs : List String)
  | mismatchedTargets (ts : List (String × String))
  | danglingContracts (ts : List (Option String × String))
deriving DecidableEq

/-- Value of one hex digit, `0` on a non-hex character (the code only ever
parses well-formed hex strings from the node). -/
def hexVal (c : Char) : Nat :=
  if c.isDigit then c.toNat - 48
  else if 'a' ≤ c ∧ c ≤ 'f' then c.toNat - 87
  else if 'A' ≤ c ∧ c ≤ 'F' then c.toNat - 55
  else 0

/-- Python `int(s, base=16)`: an optional `0x`/`0X` marker followed by hex
digits (operating on the character list keeps the definition
kernel-reducible). -/
def parseHexNat (s : String) : Nat :=
  let cs := match s.data with
    | '0' :: 'x' :: rest => rest
    | '0' :: 'X' :: rest => rest
    | cs => cs
  cs.foldl (fun a c => a * 16 + hexVal c) 0

/-- Module constant `NUM_BLOCKS_UPPER_LIMIT = 9999`. -/
def NUM_BLOCKS_UPPER_LIMIT : Int := 9999

/-- `RPCClient.get_block`. -/
def get_block (node : Node) (latest : Bool) (blockNumber : Int) : Option EVMBlock :=
  if latest then node.latest else node.blockAt blockNumber.toNat

/-- `RPCClient.get_code`: the `"0x"` sentinel becomes `None`, anything else
is passed through unchanged. -/
def get_code (node : Node) (contractAddress : String) : Option String :=
  let deployedBytecode := node.codeAt contractAddress
  if deployedBytecode = some "0x" then none else deployedBytecode

/-- `RPCClient.get_latest_block_number`: `-1` when the node has no latest
block, otherwise `int(latest["number"], 16)`. -/
def get_latest_block_number (node : Node) : Int :=
  match node.latest with
  | none => -1
  | some b => Int.ofNat (parseHexNat b.number)

/-- Message of the scan-bound `ClickException`. -/
def scanBoundMsg (url : String) : String :=
  "Number of blocks existing on the ethereum node running at " ++ url ++
  " can not exceed 10000. Did you pass the correct RPC url?"

/-- `RPCClient.get_all_blocks`, paired with the number of
`eth_getBlockByNumber` calls it issues (one for the latest block, one per
fetched block). -/
def get_all_blocks (node : Node) : Except Err (List (Option EVMBlock)) × Nat :=
  let numOfBlocks : Int := get_latest_block_number node + 1
  if numOfBlocks = 0 then (Except.ok [], 1)
  else if numOfBlocks > NUM_BLOCKS_UPPER_LIMIT then
    (Except.error (Err.scanBound (scanBoundMsg node.rpcUrl)), 1)
  else (Except.ok ((List.range numOfBlocks.toNat).map node.blockAt), 1 + numOfBlocks.toNat)

/-- Node sitting on a chain of exactly 10000 blocks: the latest block number
is `0x270f` (9999 in decimal). -/
def nodeC1 : Node :=
  { rpcUrl := "http://localhost:7545"
    numberOfCores := 1
    latest := some { number := "0x270f", miner := "", difficulty := "", gasLimit := "",
                     timestamp := "", transactions := [] }
    blockAt := fun _ => none
    codeAt := fun _ => none }

/-- Replacing every `null` (`none`) dict value with the empty string, the
first normalization pass of `get_transactions`. -/
def normalizeTx (d : TxDict) : TxDict :=
  d.map (fun kv => (kv.1, some (kv.2.getD "")))

/-- In-place value replacement for an existing key. -/
def setKey : TxDict → String → String → TxDict
  | [], _, _ => []
  | (q, w) :: rest, k, v => (q, if q = k then some v else w) :: setKey rest k v

/-- Python `dict` assignment/update semantics on the association-list model:
an existing key keeps its position and gets the new value, a new key is
appended. -/
def dictSet (d : TxDict) (k v : String) : TxDict :=
  if d.any (fun kv => kv.1 == k) then setKey d k v
  else d ++ [(k, some v)]

/-- Per-transaction body of the `get_transactions` loop: null-normalization
followed by `transaction.update({...})` with the four parent-block fields. -/
def enrichTx (b : EVMBlock) (t : TxDict) : TxDict :=
  dictSet (dictSet (dictSet (dictSet (normalizeTx t)
    "blockCoinbase" b.miner)
    "blockDifficulty" b.difficulty)
    "blockGasLimit" b.gasLimit)
    "blockTimestamp" b.timestamp

/-- Turning a list of optional blocks into an optional list: `none` exactly
when some entry is `none` (the Python loop would crash subscripting `None`). -/
def seqOpts : List (Option EVMBlock) → Option (List EVMBlock)
  | [] => some []
  | none :: _ => none
  | some b :: rest => (seqOpts rest).map (fun bs => b :: bs)

/-- Fetching all blocks for the collector: a `None` entry in the fetched list
surfaces as the Python-level `TypeError` the loop would raise on it. -/
def fetchAllBlocks (node : Node) : Except Err (List EVMBlock) :=
  match (get_all_blocks node).1 with
  | Except.error e => Except.error e
  | Except.ok obs =>
    match seqOpts obs with
    | some bs => Except.ok bs
    | none => Except.error (Err.pyError "NoneType object is not subscriptable")

/-- `RPCClient.get_transactions`: an absent — or, by Python truthiness, an
empty — block list triggers a full chain fetch; then blocks whose wire
number is in the skip set are dropped whole and the remaining transactions
are enriched in block order, preserving within-block order. -/
def get_transactions (node : Node) (blocksOpt : Option (List EVMBlock))
    (blockNumbersToSkip : List String) : Except Err (List TxDict) :=
  let eff : Except Err (List EVMBlock) :=
    match blocksOpt with
    | some bs => if bs.isEmpty then fetchAllBlocks node else Except.ok bs
    | none => fetchAllBlocks node
  match eff with
  | Except.error e => Except.error e
  | Except.ok blocks =>
    Except.ok (blocks.foldl (fun acc b =>
      if b.number ∈ blockNumbersToSkip then acc
      else acc ++ b.transactions.map (enrichTx b)) [])

/-- Insertion into the list model of a Python string set: no-op on a
duplicate, append otherwise. -/
def insertS (l : List String) (a : String) : List String :=
  if a ∈ l then l else l ++ [a]

/-- Block numbers contributed by the lessons, `{b["blockNumber"] for s in
lesson["transactions"] for b in s}` accumulated over all lessons. -/
def blocksToSkipOf (lessons : List Lesson) : List String :=
  lessons.foldl (fun acc l =>
    l.transactions.foldl (fun a2 s =>
      s.foldl (fun a3 b => insertS a3 (getStr b "blockNumber")) a2) acc) []

/-- Seed sequences suggested by the lessons. -/
def suggestedSeqsOf (lessons : List Lesson) : List (List TxDict) :=
  lessons.foldl (fun acc l => acc ++ l.transactions) []

/-- Message of the empty-history `UsageError`. -/
def emptyHistoryMsg (address url : String) : String :=
  "Unable to generate the seed state for address " ++ address ++
  ". No transactions were found in an ethereum node running at " ++ url

/-- Message of the generic seed-state `UsageError` wrapper. -/
def genericSeedMsg (address : String) : String :=
  "Unable to generate the seed state for address " ++ address ++
  ". Are you sure you passed the correct contract address?"

/-- `RPCClient.get_seed_state`: collects lesson skip-blocks and suggested
sequences, gathers the chain transactions, fails with the distinct
empty-history error when none were found, and otherwise assembles the
seed-state document. `ClickException`s (scan-bound, empty-history) pass
through; any other Python exception is wrapped into the generic
`UsageError`. -/
def get_seed_state (node : Node) (lessons : List Lesson) (address : String)
    (otherAddresses : Option (List String)) (corpusTarget : Option String) :
    Except Err SeedState :=
  match get_transactions node none (blocksToSkipOf lessons) with
  | Except.error e =>
    Except.error (match e with
      | Err.pyError _ => Err.usageGeneric (genericSeedMsg address)
      | e2 => e2)
  | Except.ok processedTransactions =>
    if processedTransactions.isEmpty then
      Except.error (Err.emptyHistory (emptyHistoryMsg address node.rpcUrl))
    else
      Except.ok
        { discoveryProbabilityThreshold := 0
          assertionCheckingMode := 1
          numCores := node.numberOfCores
          setup :=
            { addressUnderTest := address
              steps := processedTransactions
              otherAddresses := otherAddresses
              target := corpusTarget
              suggestedSeedSeqs :=
                if (suggestedSeqsOf lessons).length > 0 then some (suggestedSeqsOf lessons)
                else none } }

/-- Python `str.lower` restricted to the ASCII range actually occurring in
hex addresses, on the character-list representation. -/
def lowerStr (s : String) : String :=
  String.mk (s.data.map Char.toLower)

/-- Python `s[2:]` on the character-list representation. -/
def dropTwo (s : String) : String :=
  String.mk (s.data.drop 2)

/-- Raw (pre-lowercasing) declared addresses of the seed state:
`address-under-test` when truthy, then the truthy
`other-addresses-under-test` list. -/
def addresses_raw (ss : SeedState) : List String :=
  (if ss.setup.addressUnderTest ≠ "" then [ss.setup.addressUnderTest] else []) ++
  (match ss.setup.otherAddresses with
   | some l => if l ≠ [] then l else []
   | none => [])

/-- `RPCClient.addresses_under_test`: the declared addresses, lowercased into
a set. -/
def addresses_under_test (ss : SeedState) : List String :=
  (addresses_raw ss).foldl (fun acc a => insertS acc (lowerStr a)) []

/-- Address derived for one contract-creation transaction:
`mk_contract_address(txn["from"][2:], int(txn["nonce"], base=16))`, with the
derivation function itself passed in as `derive`. -/
def derived_address (derive : String → Nat → String) (txn : TxDict) : String :=
  derive (dropTwo (getStr txn "from")) (parseHexNat (getStr txn "nonce"))

/-- `RPCClient.get_all_deployed_contracts_addresses`: the set of derived
addresses of the steps whose `to` field is falsy (contract creations). -/
def get_all_deployed_contracts_addresses (derive : String → Nat → String)
    (ss : SeedState) : List String :=
  ss.setup.steps.foldl (fun contracts txn =>
    if getStr txn "to" ≠ "" then contracts
    else insertS contracts (derived_address derive txn)) []

/-- `RPCClient.get_inconsistent_addresses`: the pair of the missing-target
map (deployed but not declared, annotated with the fetched bytecode) and the
unknown-target list (declared but not deployed). -/
def get_inconsistent_addresses (node : Node) (derive : String → Nat → String)
    (ss : SeedState) : List (String × Option String) × List String :=
  let deployedContractsAddresses := get_all_deployed_contracts_addresses derive ss
  let targetAddresses := addresses_under_test ss
  let unknownTargetAddresses :=
    targetAddresses.filter (fun t => decide (t ∉ deployedContractsAddresses))
  let missingTargetAddresses :=
    (deployedContractsAddresses.filter (fun c => decide (c ∉ targetAddresses))).map
      (fun c => (c, get_code node c))
  (missingTargetAddresses, unknownTargetAddresses)

/-- `RPCClient.get_contract_by_address`: `None` when the address holds no
code, the resolver finds no contract for the bytecode, or the resolved
contract has no `mainSourceFile`. -/
def get_contract_by_address (node : Node) (artifacts : Artifacts)
    (contractAddress : String) : Option Contract :=
  match get_code node contractAddress with
  | none => none
  | some deployedBytecode =>
    match artifacts.getContract deployedBytecode with
    | none => none
    | some contract =>
      if contract.mainSourceFile = none then none else some contract

/-- Message of the smart-mode configuration `ClickException`. -/
def configErrMsg : String :=
  "No targets nor addresses under test are provided. " ++
  "Please turn on smart mode or provide targets and addresses under test."

/-- `RPCClient.smart_mode_setup`: fails when smart mode is off and either
input is empty; fills an empty address list with the deployed set and an
empty target list with the main source files of the resolvable contracts at
the addresses under test. -/
def smart_mode_setup (node : Node) (derive : String → Nat → String)
    (artifacts : Artifacts) (smartMode : Bool) (ss : SeedState)
    (sourceTargets : Option (List String)) :
    Except Err (List String × List String) :=
  let addressesUnderTest := addresses_under_test ss
  let st := sourceTargets.getD []
  if !smartMode && (addressesUnderTest.isEmpty || st.isEmpty) then
    Except.error (Err.configError configErrMsg)
  else
    let addressesUnderTest2 :=
      if addressesUnderTest.isEmpty then get_all_deployed_contracts_addresses derive ss
      else addressesUnderTest
    let targets :=
      if st.isEmpty then
        addressesUnderTest2.foldl (fun acc contractAddress =>
          match get_contract_by_address node artifacts contractAddress with
          | some contract => insertS acc (contract.mainSourceFile.getD "")
          | none => acc) []
      else st.foldl insertS []
    Except.ok (addressesUnderTest2, targets)

/-- `RPCClient.collect_mismatched_targets`: resolves every missing-target
address (with the `"null"` sentinel for unresolvable metadata) and collects
as mismatched those resolved entries whose source file is not the sentinel
and is listed among the source targets. -/
def collect_mismatched_targets (node : Node) (artifacts : Artifacts)
    (missingTargetAddresses : List (String × Option String))
    (sourceTargets : List String) :
    List (String × String) × List (String × String × String) :=
  let missingTargetsResolved : List (String × String × String) :=
    missingTargetAddresses.map (fun p =>
      match get_contract_by_address node artifacts p.1 with
      | some contract =>
        (p.1, contract.mainSourceFile.getD "null", contract.contractName.getD "null")
      | none => (p.1, "null", "null"))
  let mismatchedTargets : List (String × String) :=
    missingTargetsResolved.foldl (fun acc t =>
      if t.2.1 = "null" then acc
      else if t.2.1 ∈ sourceTargets then acc ++ [(t.2.1, t.1)]
      else acc) []
  (mismatchedTargets, missingTargetsResolved)

/-- Python `"..".split("/")` on the character-list representation. -/
def splitSlashAux : List Char → List Char → List String
  | [], acc => [String.mk acc.reverse]
  | c :: rest, acc =>
    if c = '/' then String.mk acc.reverse :: splitSlashAux rest []
    else splitSlashAux rest (c :: acc)

/-- Splitting a path string on the `/` separator. -/
def splitSlash (s : String) : List String :=
  splitSlashAux s.data []

/-- Components of a path as `os.path.commonpath` keeps them: split on the
separator, dropping empty components and `.`. -/
def pathComps (s : String) : List String :=
  (splitSlash s).filter (fun c => c != "" && c != ".")

/-- Longest common leading run of two component lists. -/
def commonStem : List String → List String → List String
  | a :: as, b :: bs => if a = b then a :: commonStem as bs else []
  | _, _ => []

/-- Rejoining components with the separator. -/
def joinSlash : List String → String
  | [] => ""
  | [x] => x
  | x :: xs => x ++ "/" ++ joinSlash xs

/-- `os.path.commonpath([a, b])` for two uniformly absolute (or uniformly
relative) POSIX paths, as the checker uses it: the rejoined longest common
component run, with the leading separator restored for absolute paths. -/
def commonpath (a b : String) : String :=
  (match a.data with
   | '/' :: _ => "/"
   | _ => "") ++ joinSlash (commonStem (pathComps a) (pathComps b))

/-- `RPCClient.path_inclusion_checker`: partitions the targets into
directories and plain files by the filesystem predicate `isDir`, and accepts
a candidate that equals a file target or whose common path with some
directory target is that directory. -/
def path_inclusion_checker (isDir : String → Bool) (paths : List String) :
    String → Bool :=
  let directoryPaths := paths.filter isDir
  let filePaths := paths.filter (fun p => !(isDir p))
  fun path =>
    decide (path ∈ filePaths) ||
    directoryPaths.any (fun dirPath => decide (commonpath dirPath path = dirPath))

/-- `RPCClient.collect_dangling_contracts`: an address under test is dangling
when no contract resolves for it, or when its main source file does not pass
the path-inclusion check against the source targets. -/
def collect_dangling_contracts (node : Node) (artifacts : Artifacts)
    (isDir : String → Bool) (addressesUnderTest : List String)
    (sourceTargets : List String) : List (Option String × String) :=
  let checkPath := path_inclusion_checker isDir sourceTargets
  addressesUnderTest.foldl (fun acc contractAddress =>
    match get_contract_by_address node artifacts contractAddress with
    | none => acc ++ [(none, contractAddress)]
    | some contract =>
      if contract.mainSourceFile.isNone
         || !(checkPath (artifacts.normalizePath (contract.mainSourceFile.getD ""))) then
        acc ++ [(contract.mainSourceFile, contractAddress)]
      else acc) []

/-- `RPCClient.check_contracts`: smart-mode resolution, then the staged
pipeline — unknown targets (fatal), mismatched targets (fatal), the
non-fatal missing-target acknowledgement, dangling contracts (fatal). Each
fatal stage carries the complete list for its category. -/
def check_contracts (node : Node) (derive : String → Nat → String)
    (artifacts : Artifacts) (isDir : String → Bool) (ss : SeedState)
    (sourceTargets : Option (List String)) (smartMode : Bool) :
    Except Err Unit :=
  match smart_mode_setup node derive artifacts smartMode ss sourceTargets with
  | Except.error e => Except.error e
  | Except.ok (processedAddressesUnderTest, processedSourceTargets0) =>
    let processedSourceTargets := processedSourceTargets0.map artifacts.normalizePath
    let inc := get_inconsistent_addresses node derive ss
    if !inc.2.isEmpty then Except.error (Err.unknownTargets inc.2)
    else
      let cm := collect_mismatched_targets node artifacts inc.1 processedSourceTargets
      if !cm.1.isEmpty then Except.error (Err.mismatchedTargets cm.1)
      else
        let danglingContractTargets :=
          collect_dangling_contracts node artifacts isDir
            processedAddressesUnderTest processedSourceTargets
        if !danglingContractTargets.isEmpty then
          Except.error (Err.danglingContracts danglingContractTargets)
        else Except.ok ()

/-- Stand-in derivation function used in the C2 scenario. -/
def deriveC2 : String → Nat → String := fun _ _ => "0xc0ffee"

/-- The single contract-creation transaction of the C2 scenario (sender
`0xAA00`, nonce `0x0`, empty recipient). -/
def txC2 : TxDict := [("from", some "0xAA00"), ("to", some ""), ("nonce", some "0x0")]

/-- C2 seed state: one creation step, no declared addresses under test. -/
def ssC2 : SeedState :=
  { discoveryProbabilityThreshold := 0
    assertionCheckingMode := 1
    numCores := 1
    setup :=
      { addressUnderTest := ""
        steps := [txC2]
        otherAddresses := none
        target := none
        suggestedSeedSeqs := none } }

/-- C2 node: the derived address carries bytecode `0xdeadbeef`. -/
def nodeC2 : Node :=
  { rpcUrl := "http://localhost:7545"
    numberOfCores := 1
    latest := none
    blockAt := fun _ => none
    codeAt := fun a => if a = "0xc0ffee" then some "0xdeadbeef" else none }

/-- C2 resolver: matches the deployed bytecode to `/project/Foo.sol`; path
normalization is the identity (the resolved path is already normalized). -/
def artifactsC2 : Artifacts :=
  { getContract := fun b =>
      if b = "0xdeadbeef" then
        some { mainSourceFile := some "/project/Foo.sol", contractName := some "Foo" }
      else none
    normalizePath := fun p => p }

/-- Derivation stand-in for the C3 witness: always the lowercase address. -/
def deriveC3 : String → Nat → String := fun _ _ => "0xabc"

/-- Creation transaction for the C3 witness. -/
def txC3 : TxDict := [("from", some "0xAB"), ("to", some ""), ("nonce", some "0x0")]

/-- C3 seed state: the user declares the uppercase spelling `0xABC`. -/
def ssC3 : SeedState :=
  { discoveryProbabilityThreshold := 0
    assertionCheckingMode := 1
    numCores := 1
    setup :=
      { addressUnderTest := "0xABC"
        steps := [txC3]
        otherAddresses := none
        target := none
        suggestedSeedSeqs := none } }

/-- C3 node (no bytecode anywhere; irrelevant to the comparison). -/
def nodeC3 : Node :=
  { rpcUrl := "u", numberOfCores := 1, latest := none,
    blockAt := fun _ => none, codeAt := fun _ => none }

/-- C4 seed state: `0xdead` declared under test, empty chain history. -/
def ssC4 : SeedState :=
  { discoveryProbabilityThreshold := 0
    assertionCheckingMode := 1
    numCores := 1
    setup :=
      { addressUnderTest := "0xdead"
        steps := []
        otherAddresses := none
        target := none
        suggestedSeedSeqs := none } }

/-- C4 node. -/
def nodeC4 : Node :=
  { rpcUrl := "u", numberOfCores := 1, latest := none,
    blockAt := fun _ => none, codeAt := fun _ => none }

/-- C4 resolver (resolves nothing). -/
def artifactsC4 : Artifacts :=
  { getContract := fun _ => none, normalizePath := fun p => p }

/-- Directory predicate of the C5 scenario: only `/project/contracts` is a
directory. -/
def isDirC5 : String → Bool := fun p => p == "/project/contracts"

/-- First derivation stand-in for C6. -/
def deriveC6a : String → Nat → String := fun f _ => "0xaa" ++ f

/-- Second derivation stand-in for C6: agrees with the first one only on the
creation transaction's inputs and differs everywhere else. -/
def deriveC6b : String → Nat → String :=
  fun f n => if f = "AB" ∧ n = 1 then "0xaa" ++ f else "0xzz"

/-- Creation transaction of the C6 witness. -/
def txC6a : TxDict := [("from", some "0xAB"), ("to", some ""), ("nonce", some "0x1")]

/-- Plain call transaction of the C6 witness (non-empty recipient). -/
def txC6b : TxDict := [("from", some "0xCD"), ("to", some "0x99"), ("nonce", some "0x2")]

/-- C6 seed state with one creation and one call step. -/
def ssC6 : SeedState :=
  { discoveryProbabilityThreshold := 0
    assertionCheckingMode := 1
    numCores := 1
    setup :=
      { addressUnderTest := ""
        steps := [txC6a, txC6b]
        otherAddresses := none
        target := none
        suggestedSeedSeqs := none } }

/-- Transaction sitting in the C7 block, with one `null` field. -/
def txC7 : TxDict := [("hash", some "0x01"), ("to", none)]

/-- The single block of the C7 node. -/
def blockC7 : EVMBlock :=
  { number := "0x0", miner := "0xfeed", difficulty := "0x1", gasLimit := "0x6691b7",
    timestamp := "0x60", transactions := [txC7] }

/-- C7 node: a one-block chain holding one transaction. -/
def nodeC7 : Node :=
  { rpcUrl := "u", numberOfCores := 1, latest := some blockC7,
    blockAt := fun n => if n = 0 then some blockC7 else none,
    codeAt := fun _ => none }

/-- C8 node: `0xa` reports the no-code sentinel, `0xb` reports bytecode. -/
def nodeC8 : Node :=
  { rpcUrl := "u", numberOfCores := 1, latest := none,
    blockAt := fun _ => none,
    codeAt := fun a => if a = "0xa" then some "0x" else if a = "0xb" then some "0x6001" else none }

/-- C9 node with an empty chain (no latest block). -/
def nodeC9empty : Node :=
  { rpcUrl := "http://localhost:7545", numberOfCores := 1, latest := none,
    blockAt := fun _ => none, codeAt := fun _ => none }

/-- Transaction of the C9 success case. -/
def txC9 : TxDict := [("from", some "0xAB"), ("to", some ""), ("nonce", some "0x0")]

/-- Block of the C9 success case. -/
def blockC9 : EVMBlock :=
  { number := "0x0", miner := "0xfeed", difficulty := "0x1", gasLimit := "0x6691b7",
    timestamp := "0x60", transactions := [txC9] }

/-- C9 node with a one-block, one-transaction chain. -/
def nodeC9ok : Node :=
  { rpcUrl := "http://localhost:7545", numberOfCores := 1, latest := some blockC9,
    blockAt := fun n => if n = 0 then some blockC9 else none,
    codeAt := fun _ => none }

/-- Seed state produced by `get_seed_state` on `nodeC9ok`. -/
def ssC9 : SeedState :=
  { discoveryProbabilityThreshold := 0
    assertionCheckingMode := 1
    numCores := 1
    setup :=
      { addressUnderTest := "0xa"
        steps := [enrichTx blockC9 txC9]
        otherAddresses := none
        target := none
        suggestedSeedSeqs := none } }

/-- Derivation stand-in for the C4 witness (never consulted: the C4 chain
has no steps). -/
def deriveC4 : String → Nat → String := fun _ _ => "0xbeef"

/-- C10 node: address `0x0a` holds bytecode `0xb10b`. -/
def nodeC10 : Node :=
  { rpcUrl := "u", numberOfCores := 1, latest := none,
    blockAt := fun _ => none,
    codeAt := fun a => if a = "0x0a" then some "0xb10b" else none }

/-- C10 resolver: the deployed contract's actual main source file path is the
literal string `"null"`, and its contract name is `Foo`. -/
def artifactsC10 : Artifacts :=
  { getContract := fun b =>
      if b = "0xb10b" then some { mainSourceFile := some "null", contractName := some "Foo" }
      else none
    normalizePath := fun p => p }

/-- C1: a chain of exactly 10000 blocks (latest block number 9999) does not
exceed the documented 10000-block bound, so by the claim (and by the
function's own docstring and error text) `get_all_blocks` should return the
full block list; the code instead raises the scan-bound error, because the
constant `NUM_BLOCKS_UPPER_LIMIT` is 9999. The call counter also shows the
error is raised after the single latest-block fetch. -/
theorem C1_scan_bound_off_by_one :
    get_latest_block_number nodeC1 + 1 = 10000 ∧
    (get_all_blocks nodeC1).1 =
      Except.error (Err.scanBound (scanBoundMsg "http://localhost:7545")) ∧
    (get_all_blocks nodeC1).2 = 1 := by
  refine ⟨by decide, ?_, by decide⟩
  rfl

/-- Membership in the set-insert model. -/
theorem insertS_mem (l : List String) (a b : String) :
    b ∈ insertS l a ↔ b ∈ l ∨ b = a := by
  unfold insertS
  by_cases h : a ∈ l
  · rw [if_pos h]
    constructor
    · exact Or.inl
    · rintro (hb | rfl)
      · exact hb
      · exact h
  · rw [if_neg h]
    simp

/-- Membership in the lowercased declared-address set. -/
theorem mem_lower_foldl (l acc : List String) (a : String) :
    a ∈ l.foldl (fun acc x => insertS acc (lowerStr x)) acc ↔
      a ∈ acc ∨ ∃ x ∈ l, a = lowerStr x := by
  induction l generalizing acc with
  | nil => simp
  | cons x xs ih =>
    simp only [List.foldl_cons]
    rw [ih, insertS_mem, List.exists_mem_cons_iff]
    tauto

/-- Membership in the deployed-contract accumulator of
`get_all_deployed_contracts_addresses`. -/
theorem mem_deployed_foldl (derive : String → Nat → String) (steps : List TxDict)
    (acc : List String) (a : String) :
    a ∈ steps.foldl (fun contracts txn =>
        if getStr txn "to" ≠ "" then contracts
        else insertS contracts (derived_address derive txn)) acc ↔
      a ∈ acc ∨ ∃ txn ∈ steps, getStr txn "to" = "" ∧ a = derived_address derive txn := by
  induction steps generalizing acc with
  | nil => simp
  | cons t ts ih =>
    simp only [List.foldl_cons]
    by_cases h : getStr t "to" = ""
    · rw [if_neg (by simp [h]), ih, insertS_mem, List.exists_mem_cons_iff]
      tauto
    · rw [if_pos h, ih, List.exists_mem_cons_iff]
      tauto

/-- The collector loop of `get_transactions` as a filter-and-flatten. -/
theorem get_transactions_foldl (skip : List String) (bs : List EVMBlock)
    (acc : List TxDict) :
    bs.foldl (fun acc b =>
        if b.number ∈ skip then acc
        else acc ++ b.transactions.map (enrichTx b)) acc =
      acc ++ (bs.filter (fun b => decide (b.number ∉ skip))).flatMap
        (fun b => b.transactions.map (enrichTx b)) := by
  induction bs generalizing acc with
  | nil => simp
  | cons b bs ih =>
    simp only [List.foldl_cons, List.filter_cons]
    by_cases h : b.number ∈ skip
    · rw [if_pos h]
      simp [h, ih]
    · rw [if_neg h]
      simp [h, ih]

/-- Replacing over a list that does contain the key reads back the new
value. -/
theorem getStr_setKey_self (d : TxDict) (k v : String)
    (h : ∃ kv ∈ d, kv.1 = k) :
    getStr (setKey d k v) k = v := by
  induction d with
  | nil => simp at h
  | cons kv rest ih =>
    obtain ⟨q, w⟩ := kv
    by_cases hk : q = k
    · simp [setKey, getStr, hk]
    · simp only [setKey, getStr, if_neg hk]
      apply ih
      rcases h with ⟨x, hx, hxk⟩
      rcases List.mem_cons.mp hx with rfl | hx2
      · exact absurd hxk hk
      · exact ⟨x, hx2, hxk⟩

/-- Replacing one key leaves the reads of every other key unchanged. -/
theorem getStr_setKey_ne (d : TxDict) (k v q : String) (hq : q ≠ k) :
    getStr (setKey d k v) q = getStr d q := by
  induction d with
  | nil => rfl
  | cons kv rest ih =>
    obtain ⟨p, w⟩ := kv
    by_cases hp : p = q
    · have hpk : p ≠ k := fun h => hq (hp ▸ h)
      simp [setKey, getStr, hp, hpk, hq]
    · simp [setKey, getStr, hp, ih]

/-- Reading the appended key. -/
theorem getStr_append_single_self (d : TxDict) (k v : String)
    (h : ∀ kv ∈ d, kv.1 ≠ k) :
    getStr (d ++ [(k, some v)]) k = v := by
  induction d with
  | nil => simp [getStr]
  | cons kv rest ih =>
    obtain ⟨q, w⟩ := kv
    have hqk : q ≠ k := h (q, w) (List.mem_cons_self _ _)
    simp only [List.cons_append, getStr, if_neg hqk]
    exact ih (fun x hx => h x (List.mem_cons_of_mem _ hx))

/-- Reading any other key through the appended entry. -/
theorem getStr_append_single_ne (d : TxDict) (k v q : String) (hq : q ≠ k) :
    getStr (d ++ [(k, some v)]) q = getStr d q := by
  induction d with
  | nil => simp [getStr, Ne.symm hq]
  | cons kv rest ih =>
    obtain ⟨p, w⟩ := kv
    by_cases hp : p = q
    · simp [getStr, hp]
    · simp [getStr, hp, ih]

/-- Setting a key in the dict model makes that key read back the value. -/
theorem getStr_dictSet_self (d : TxDict) (k v : String) :
    getStr (dictSet d k v) k = v := by
  unfold dictSet
  by_cases h : d.any (fun kv => kv.1 == k)
  · rw [if_pos h]
    apply getStr_setKey_self
    rcases List.any_eq_true.mp h with ⟨x, hx, hxk⟩
    exact ⟨x, hx, by simpa using hxk⟩
  · rw [if_neg h]
    apply getStr_append_single_self
    intro kv hkv hk
    exact h (List.any_eq_true.mpr ⟨kv, hkv, by simpa using hk⟩)

/-- Setting one key leaves the reads of every other key unchanged. -/
theorem getStr_dictSet_ne (d : TxDict) (k v q : String) (hq : q ≠ k) :
    getStr (dictSet d k v) q = getStr d q := by
  unfold dictSet
  by_cases h : d.any (fun kv => kv.1 == k)
  · rw [if_pos h]
    exact getStr_setKey_ne d k v q hq
  · rw [if_neg h]
    exact getStr_append_single_ne d k v q hq

/-- Null-normalization leaves no `none` value in the dict. -/
theorem normalizeTx_some (d : TxDict) :
    ∀ kv ∈ normalizeTx d, kv.2 ≠ none := by
  intro kv hkv
  unfold normalizeTx at hkv
  rcases List.mem_map.mp hkv with ⟨x, _, rfl⟩
  simp

/-- Replacement never introduces a `none` value. -/
theorem setKey_some (d : TxDict) (k v : String)
    (h : ∀ kv ∈ d, kv.2 ≠ none) :
    ∀ kv ∈ setKey d k v, kv.2 ≠ none := by
  induction d with
  | nil => simp [setKey]
  | cons kv rest ih =>
    obtain ⟨q, w⟩ := kv
    intro x hx
    simp only [setKey, List.mem_cons] at hx
    rcases hx with rfl | hx
    · by_cases hk : q = k
      · simp [hk]
      · simpa [hk] using h (q, w) (List.mem_cons_self _ _)
    · exact ih (fun y hy => h y (List.mem_cons_of_mem _ hy)) x hx

/-- Setting a key never introduces a `none` value. -/
theorem dictSet_some (d : TxDict) (k v : String)
    (h : ∀ kv ∈ d, kv.2 ≠ none) :
    ∀ kv ∈ dictSet d k v, kv.2 ≠ none := by
  intro kv hkv
  unfold dictSet at hkv
  by_cases hc : d.any (fun kv => kv.1 == k)
  · rw [if_pos hc] at hkv
    exact setKey_some d k v h kv hkv
  · rw [if_neg hc] at hkv
    rcases List.mem_append.mp hkv with hkv | hkv
    · exact h kv hkv
    · simp only [List.mem_singleton] at hkv
      subst hkv
      simp

/-- Membership in the mismatched-target accumulator of
`collect_mismatched_targets`. -/
theorem mem_mismatched_foldl (st : List String)
    (l : List (String × String × String)) (acc : List (String × String))
    (x : String × String) :
    x ∈ l.foldl (fun acc t =>
        if t.2.1 = "null" then acc
        else if t.2.1 ∈ st then acc ++ [(t.2.1, t.1)]
        else acc) acc ↔
      x ∈ acc ∨ ∃ t ∈ l, t.2.1 ≠ "null" ∧ t.2.1 ∈ st ∧ x = (t.2.1, t.1) := by
  induction l generalizing acc with
  | nil => simp
  | cons t ts ih =>
    simp only [List.foldl_cons]
    by_cases h1 : t.2.1 = "null"
    · rw [if_pos h1, ih, List.exists_mem_cons_iff]
      tauto
    · rw [if_neg h1]
      by_cases h2 : t.2.1 ∈ st
      · rw [if_pos h2, ih, List.exists_mem_cons_iff]
        simp only [List.mem_append, List.mem_singleton]
        tauto
      · rw [if_neg h2, ih, List.exists_mem_cons_iff]
        tauto

/-- C8: `get_code` maps the `"0x"` no-code sentinel to `none` and passes any
other reported bytecode string through unchanged. -/
theorem C8_get_code_sentinel (node : Node) (addr : String) :
    (node.codeAt addr = some "0x" → get_code node addr = none) ∧
    (∀ s, node.codeAt addr = some s → s ≠ "0x" → get_code node addr = some s) := by
  constructor
  · intro h
    unfold get_code
    rw [h]
    simp
  · intro s h hs
    unfold get_code
    rw [h]
    simp [hs]

/-- C5: the checker built by `path_inclusion_checker` accepts a candidate
exactly when it equals a non-directory target or its common path with some
directory target is that directory; in particular the string-prefix-like
candidate `/project/contracts-extra/Foo.sol` is rejected for the directory
target `/project/contracts`. -/
theorem C5_path_inclusion :
    (∀ (isDir : String → Bool) (paths : List String) (p : String),
       path_inclusion_checker isDir paths p = true ↔
         (p ∈ paths.filter (fun q => !(isDir q)) ∨
          ∃ d ∈ paths.filter isDir, commonpath d p = d)) ∧
    path_inclusion_checker isDirC5 ["/project/contracts"]
      "/project/contracts-extra/Foo.sol" = false := by
  constructor
  · intro isDir paths p
    unfold path_inclusion_checker
    simp [List.any_eq_true, and_assoc]
  · decide

/-- Witness for C5: the directory target itself is accepted through the
common-path containment branch. -/
theorem C5_path_inclusion_witness :
    path_inclusion_checker isDirC5 ["/project/contracts"] "/project/contracts" = true :=
  (C5_path_inclusion.1 isDirC5 ["/project/contracts"] "/project/contracts").mpr
    (Or.inr ⟨"/project/contracts", by decide, by decide⟩)

/-- The deployed-set fold only consults the derivation function on creation
transactions. -/
theorem deployed_foldl_congr (derive derive2 : String → Nat → String)
    (steps : List TxDict) (acc : List String)
    (h : ∀ txn ∈ steps, getStr txn "to" = "" →
      derived_address derive txn = derived_address derive2 txn) :
    steps.foldl (fun contracts txn =>
      if getStr txn "to" ≠ "" then contracts
      else insertS contracts (derived_address derive txn)) acc =
    steps.foldl (fun contracts txn =>
      if getStr txn "to" ≠ "" then contracts
      else insertS contracts (derived_address derive2 txn)) acc := by
  induction steps generalizing acc with
  | nil => rfl
  | cons t ts ih =>
    simp only [List.foldl_cons]
    by_cases hto : getStr t "to" = ""
    · rw [if_neg (by simp [hto]), if_neg (by simp [hto]),
        h t (List.mem_cons_self _ _) hto]
      exact ih _ (fun txn hx => h txn (List.mem_cons_of_mem _ hx))
    · rw [if_pos hto, if_pos hto]
      exact ih _ (fun txn hx => h txn (List.mem_cons_of_mem _ hx))

/-- C6: the deployed-contract set is exactly the set of derived addresses of
the empty-recipient (creation) steps, and the derivation function is never
consulted on a step with a non-empty recipient: two derivation functions
that agree on the creation steps produce identical results. -/
theorem C6_creation_only (derive derive2 : String → Nat → String) (ss : SeedState)
    (hagree : ∀ txn ∈ ss.setup.steps, getStr txn "to" = "" →
      derived_address derive txn = derived_address derive2 txn) :
    (∀ a, a ∈ get_all_deployed_contracts_addresses derive ss ↔
      ∃ txn ∈ ss.setup.steps, getStr txn "to" = "" ∧ a = derived_address derive txn) ∧
    get_all_deployed_contracts_addresses derive ss =
      get_all_deployed_contracts_addresses derive2 ss := by
  constructor
  · intro a
    unfold get_all_deployed_contracts_addresses
    rw [mem_deployed_foldl]
    simp
  · unfold get_all_deployed_contracts_addresses
    exact deployed_foldl_congr derive derive2 ss.setup.steps [] hagree

/-- Witness for C6: the two stand-in derivation functions agree on the one
creation step and differ elsewhere, yet the deployed sets coincide and hold
the derived address of the creation step. -/
theorem C6_creation_only_witness :
    get_all_deployed_contracts_addresses deriveC6a ssC6 =
      get_all_deployed_contracts_addresses deriveC6b ssC6 ∧
    "0xaaAB" ∈ get_all_deployed_contracts_addresses deriveC6a ssC6 :=
  ⟨(C6_creation_only deriveC6a deriveC6b ssC6 (by decide)).2,
   ((C6_creation_only deriveC6a deriveC6b ssC6 (by decide)).1 "0xaaAB").mpr
     ⟨txC6a, by decide, by decide, by decide⟩⟩

/-- C7 (counterexample): with a provided but empty block list, Python
truthiness routes `get_transactions` into the fetch-all path, so the node's
own transaction is returned instead of the empty list the claim predicts for
an empty provided block list. -/
theorem C7_empty_list_counterexample :
    get_transactions nodeC7 (some []) [] =
      Except.ok [[("hash", some "0x01"), ("to", some ""),
        ("blockCoinbase", some "0xfeed"), ("blockDifficulty", some "0x1"),
        ("blockGasLimit", some "0x6691b7"), ("blockTimestamp", some "0x60")]] ∧
    Except.ok [[("hash", some "0x01"), ("to", some ""),
        ("blockCoinbase", some "0xfeed"), ("blockDifficulty", some "0x1"),
        ("blockGasLimit", some "0x6691b7"), ("blockTimestamp", some "0x60")]] ≠
      (Except.ok [] : Except Err (List TxDict)) := by
  constructor
  · rfl
  · intro h
    injection h with h2
    cases h2

/-- C7 (amended): for every non-empty provided block list, the collector
returns the transactions of the non-skipped blocks in block order and
within-block order, each transaction carries no `null` field, and each reads
back its parent block's miner, difficulty, gas limit and timestamp. -/
theorem C7_amended (node : Node) (blocks : List EVMBlock) (skip : List String)
    (hne : blocks ≠ []) :
    get_transactions node (some blocks) skip =
      Except.ok ((blocks.filter (fun b => decide (b.number ∉ skip))).flatMap
        (fun b => b.transactions.map (enrichTx b))) ∧
    (∀ b t, ∀ kv ∈ enrichTx b t, kv.2 ≠ none) ∧
    (∀ b t, getStr (enrichTx b t) "blockCoinbase" = b.miner ∧
      getStr (enrichTx b t) "blockDifficulty" = b.difficulty ∧
      getStr (enrichTx b t) "blockGasLimit" = b.gasLimit ∧
      getStr (enrichTx b t) "blockTimestamp" = b.timestamp) := by
  refine ⟨?_, ?_, ?_⟩
  · have hbe : blocks.isEmpty = false := by
      cases blocks
      · exact absurd rfl hne
      · rfl
    unfold get_transactions
    simp only [hbe, Bool.false_eq_true, if_false]
    rw [get_transactions_foldl]
    simp
  · intro b t kv hkv
    unfold enrichTx at hkv
    exact dictSet_some _ _ _ (dictSet_some _ _ _ (dictSet_some _ _ _
      (dictSet_some _ _ _ (normalizeTx_some t)))) kv hkv
  · intro b t
    unfold enrichTx
    refine ⟨?_, ?_, ?_, ?_⟩
    · rw [getStr_dictSet_ne _ _ _ _ (by decide), getStr_dictSet_ne _ _ _ _ (by decide),
        getStr_dictSet_ne _ _ _ _ (by decide), getStr_dictSet_self]
    · rw [getStr_dictSet_ne _ _ _ _ (by decide), getStr_dictSet_ne _ _ _ _ (by decide),
        getStr_dictSet_self]
    · rw [getStr_dictSet_ne _ _ _ _ (by decide), getStr_dictSet_self]
    · rw [getStr_dictSet_self]

/-- Witness for C7 (amended): one provided block, an irrelevant skip set. -/
theorem C7_amended_witness :
    get_transactions nodeC7 (some [blockC7]) ["0x5"] =
      Except.ok [enrichTx blockC7 txC7] := by
  have h := (C7_amended nodeC7 [blockC7] ["0x5"] (by decide)).1
  exact h

/-- Witness for C8: the sentinel report maps to `none`, real bytecode is
passed through. -/
theorem C8_get_code_sentinel_witness :
    get_code nodeC8 "0xa" = none ∧ get_code nodeC8 "0xb" = some "0x6001" :=
  ⟨(C8_get_code_sentinel nodeC8 "0xa").1 (by rfl),
   (C8_get_code_sentinel nodeC8 "0xb").2 "0x6001" (by rfl) (by decide)⟩

/-- C10 (counterexample): a deployed contract whose actual main source file
is the literal string `"null"` is skipped by the mismatched check even with
`"null"` among the source targets, but its resolved entry keeps the actual
contract name `Foo` — not `"null"` as the claim states. -/
theorem C10_null_sentinel_counterexample :
    collect_mismatched_targets nodeC10 artifactsC10 [("0x0a", some "0xb10b")] ["null"] =
      ([], [("0x0a", "null", "Foo")]) ∧ ("Foo" : String) ≠ "null" := by
  constructor
  · rfl
  · decide

/-- C3: the declared addresses are lowercased before the unknown/missing
partition, so an address declared in uppercase whose lowercase form is a
derived deployed address is neither reported unknown nor does its deployed
form end up missing. -/
theorem C3_lowercase_comparison (node : Node) (derive : String → Nat → String)
    (ss : SeedState) (A d : String)
    (hd : d ∈ get_all_deployed_contracts_addresses derive ss)
    (heq : lowerStr A = d) :
    lowerStr A ∉ (get_inconsistent_addresses node derive ss).2 ∧
    (A ∈ addresses_raw ss →
      ∀ p ∈ (get_inconsistent_addresses node derive ss).1, p.1 ≠ d) := by
  constructor
  · intro hmem
    unfold get_inconsistent_addresses at hmem
    simp only [List.mem_filter, decide_eq_true_eq] at hmem
    exact hmem.2 (heq ▸ hd)
  · intro hraw p hp
    unfold get_inconsistent_addresses at hp
    simp only [List.mem_map] at hp
    rcases hp with ⟨c, hc, rfl⟩
    simp only [List.mem_filter, decide_eq_true_eq] at hc
    intro hcd
    have hcd2 : c = d := hcd
    apply hc.2
    rw [hcd2, ← heq]
    unfold addresses_under_test
    rw [mem_lower_foldl]
    exact Or.inr ⟨A, hraw, rfl⟩

/-- Witness for C3: `0xABC` declared, `0xabc` derived as deployed; the
lowercased declared address is not reported unknown. -/
theorem C3_lowercase_comparison_witness :
    "0xabc" ∈ get_all_deployed_contracts_addresses deriveC3 ssC3 ∧
    lowerStr "0xABC" = "0xabc" ∧
    lowerStr "0xABC" ∉ (get_inconsistent_addresses nodeC3 deriveC3 ssC3).2 :=
  ⟨by decide, by decide,
   (C3_lowercase_comparison nodeC3 deriveC3 ssC3 "0xABC" "0xabc" (by decide) (by decide)).1⟩

/-- C9: when the collected transaction sequence is empty the builder fails
with the distinct empty-history usage error, and a successfully returned
seed-state document never has an empty steps list. -/
theorem C9_empty_history (node : Node) (lessons : List Lesson) (address : String)
    (others : Option (List String)) (corpus : Option String) :
    (get_transactions node none (blocksToSkipOf lessons) = Except.ok [] →
      get_seed_state node lessons address others corpus =
        Except.error (Err.emptyHistory (emptyHistoryMsg address node.rpcUrl))) ∧
    (∀ ss, get_seed_state node lessons address others corpus = Except.ok ss →
      ss.setup.steps ≠ []) := by
  constructor
  · intro h
    unfold get_seed_state
    rw [h]
    simp
  · intro ss hss
    unfold get_seed_state at hss
    cases hgt : get_transactions node none (blocksToSkipOf lessons) with
    | error e =>
      rw [hgt] at hss
      simp at hss
    | ok txs =>
      rw [hgt] at hss
      by_cases hemp : txs.isEmpty
      · simp only [hemp, if_true] at hss
        simp at hss
      · simp only [hemp, Bool.false_eq_true, if_false] at hss
        injection hss with h2
        rw [← h2]
        simpa using hemp

/-- Witness for C9: an empty chain produces the empty-history error; a
one-transaction chain produces a document with a non-empty steps list. -/
theorem C9_empty_history_witness :
    get_seed_state nodeC9empty [] "0xa" none none =
      Except.error (Err.emptyHistory (emptyHistoryMsg "0xa" "http://localhost:7545")) ∧
    ssC9.setup.steps ≠ [] :=
  ⟨(C9_empty_history nodeC9empty [] "0xa" none none).1 (by rfl),
   (C9_empty_history nodeC9ok [] "0xa" none none).2 ssC9 (by rfl)⟩

/-- C10 (amended): a missing-target address whose metadata does not resolve,
or whose resolved main source file is the literal `"null"`, is never recorded
as mismatched — even with `"null"` among the declared source targets — and
it still appears in the resolved missing-targets list with `"null"` as the
source-file field and its actual resolved contract name (`"null"` only when
the metadata did not resolve or carries no name) as the contract-name
field. -/
theorem C10_null_sentinel_amended (node : Node) (artifacts : Artifacts)
    (missing : List (String × Option String)) (st : List String)
    (addr : String) (bc : Option String)
    (hmem : (addr, bc) ∈ missing)
    (hnull : get_contract_by_address node artifacts addr = none ∨
      ∃ c, get_contract_by_address node artifacts addr = some c ∧
        c.mainSourceFile = some "null") :
    (∀ pr ∈ (collect_mismatched_targets node artifacts missing st).1, pr.2 ≠ addr) ∧
    (addr, "null",
      ((get_contract_by_address node artifacts addr).map
        (fun c => c.contractName.getD "null")).getD "null") ∈
      (collect_mismatched_targets node artifacts missing st).2 := by
  constructor
  · intro pr hpr
    unfold collect_mismatched_targets at hpr
    rw [mem_mismatched_foldl] at hpr
    rcases hpr with hpr | ⟨t, htmem, htnn, _, rfl⟩
    · simp at hpr
    · rcases List.mem_map.mp htmem with ⟨p, _, rfl⟩
      intro haddr
      cases hres : get_contract_by_address node artifacts p.1 with
      | none =>
        rw [hres] at htnn
        exact htnn rfl
      | some c =>
        rw [hres] at htnn haddr
        have haddr2 : p.1 = addr := haddr
        rw [haddr2] at hres
        rcases hnull with hnone | ⟨c2, hsome, hmsf⟩
        · rw [hnone] at hres
          exact Option.noConfusion hres
        · rw [hsome] at hres
          injection hres with hc2
          apply htnn
          show c.mainSourceFile.getD "null" = "null"
          rw [← hc2, hmsf]
          rfl
  · unfold collect_mismatched_targets
    simp only [List.mem_map]
    refine ⟨(addr, bc), hmem, ?_⟩
    rcases hnull with hnone | ⟨c, hsome, hmsf⟩
    · simp [hnone]
    · simp [hsome, hmsf]

/-- Witness for C10 (amended): the concrete node and resolver of the C10
scenario. -/
theorem C10_null_sentinel_amended_witness :
    ("0x0a", "null", "Foo") ∈ (collect_mismatched_targets nodeC10 artifactsC10
      [("0x0a", some "0xb10b")] ["null"]).2 := by
  have h := (C10_null_sentinel_amended nodeC10 artifactsC10
    [("0x0a", some "0xb10b")] ["null"] "0x0a" (some "0xb10b")
    (by decide)
    (Or.inr ⟨⟨some "null", some "Foo"⟩, rfl, rfl⟩)).2
  exact h

/-- C4: once smart-mode setup succeeds, `check_contracts` fails with the
unknown-targets error exactly when the unknown set — the filter of all
declared (lowercased) addresses against the derived deployed set, so every
declared address has been checked and all offenders are listed together — is
non-empty, and in that case the pipeline result is that single error, so no
later stage's error can be produced; when the unknown set is empty the
unknown-targets error is never raised. -/
theorem C4_unknown_targets (node : Node) (derive : String → Nat → String)
    (artifacts : Artifacts) (isDir : String → Bool) (ss : SeedState)
    (st : Option (List String)) (smart : Bool) (aut tg : List String)
    (hsetup : smart_mode_setup node derive artifacts smart ss st = Except.ok (aut, tg)) :
    ((get_inconsistent_addresses node derive ss).2 =
      (addresses_under_test ss).filter
        (fun t => decide (t ∉ get_all_deployed_contracts_addresses derive ss))) ∧
    ((get_inconsistent_addresses node derive ss).2 ≠ [] →
      check_contracts node derive artifacts isDir ss st smart =
        Except.error (Err.unknownTargets (get_inconsistent_addresses node derive ss).2)) ∧
    ((get_inconsistent_addresses node derive ss).2 = [] →
      ∀ l, check_contracts node derive artifacts isDir ss st smart ≠
        Except.error (Err.unknownTargets l)) := by
  refine ⟨rfl, ?_, ?_⟩
  · intro hne
    have hbe : ((get_inconsistent_addresses node derive ss).2.isEmpty) = false := by
      cases h : (get_inconsistent_addresses node derive ss).2
      · exact absurd h hne
      · rfl
    unfold check_contracts
    rw [hsetup]
    simp only [hbe, Bool.not_false, if_true]
  · intro hemp l
    have hbe : ((get_inconsistent_addresses node derive ss).2.isEmpty) = true := by
      rw [hemp]
      rfl
    unfold check_contracts
    rw [hsetup]
    simp only [hbe, Bool.not_true, Bool.false_eq_true, if_false]
    intro heq
    split at heq
    · exact Err.noConfusion (Except.error.inj heq)
    · split at heq
      · exact Err.noConfusion (Except.error.inj heq)
      · exact Except.noConfusion heq

/-- Witness for C4: declared address `0xdead` on an empty chain with smart
mode off and explicit source targets. -/
theorem C4_unknown_targets_witness :
    check_contracts nodeC4 deriveC4 artifactsC4 (fun _ => false) ssC4
      (some ["/a.sol"]) false =
      Except.error (Err.unknownTargets ["0xdead"]) := by
  have h := (C4_unknown_targets nodeC4 deriveC4 artifactsC4 (fun _ => false) ssC4
    (some ["/a.sol"]) false ["0xdead"] ["/a.sol"] (by rfl)).2.1 (by decide)
  exact h

/-- C2 (counterexample): in the exact claimed scenario — one creation
transaction, smart mode on, nothing declared, resolver matching the bytecode
to a source file, identity path normalization — `check_contracts` raises the
mismatched-target error instead of completing: the inconsistency stage
re-reads the declared (empty) addresses from the seed state rather than the
smart-mode-derived ones, so the derived contract counts as a missing target
whose source file is among the derived targets. -/
theorem C2_smart_scenario_counterexample :
    check_contracts nodeC2 deriveC2 artifactsC2 (fun _ => false) ssC2 none true =
      Except.error (Err.mismatchedTargets [("/project/Foo.sol", "0xc0ffee")]) := by
  rfl

/-- C2 (amended): in the claimed scenario the smart-mode stage does derive
the addresses-under-test as the singleton of the derived address (and the
targets as the resolved main source file), and the unknown-target stage
passes; but when path normalization leaves the resolved source path
unchanged, the run then terminates with the mismatched-target error naming
that source file and the derived address — it does not complete cleanly. -/
theorem C2_smart_scenario_mismatch (node : Node) (derive : String → Nat → String)
    (artifacts : Artifacts) (isDir : String → Bool) (ss : SeedState)
    (txn : TxDict) (contract : Contract) (msf : String)
    (hsteps : ss.setup.steps = [txn]) (hto : getStr txn "to" = "")
    (haddr : ss.setup.addressUnderTest = "") (hother : ss.setup.otherAddresses = none)
    (hc : get_contract_by_address node artifacts (derived_address derive txn) =
      some contract)
    (hmsf : contract.mainSourceFile = some msf) (hnn : msf ≠ "null")
    (hnorm : artifacts.normalizePath msf = msf) :
    smart_mode_setup node derive artifacts true ss none =
      Except.ok ([derived_address derive txn], [msf]) ∧
    check_contracts node derive artifacts isDir ss none true =
      Except.error (Err.mismatchedTargets [(msf, derived_address derive txn)]) := by
  have haut : addresses_under_test ss = [] := by
    unfold addresses_under_test addresses_raw
    rw [haddr, hother]
    simp
  have hdep : get_all_deployed_contracts_addresses derive ss =
      [derived_address derive txn] := by
    unfold get_all_deployed_contracts_addresses
    rw [hsteps]
    simp [hto, insertS]
  have hsetup : smart_mode_setup node derive artifacts true ss none =
      Except.ok ([derived_address derive txn], [msf]) := by
    unfold smart_mode_setup
    rw [haut, hdep]
    simp [hc, hmsf, insertS]
  refine ⟨hsetup, ?_⟩
  have hinc : get_inconsistent_addresses node derive ss =
      ([(derived_address derive txn, get_code node (derived_address derive txn))],
       []) := by
    unfold get_inconsistent_addresses
    rw [haut, hdep]
    simp
  have hcm : collect_mismatched_targets node artifacts
      [(derived_address derive txn, get_code node (derived_address derive txn))]
      [msf] =
      ([(msf, derived_address derive txn)],
       [(derived_address derive txn, msf, contract.contractName.getD "null")]) := by
    unfold collect_mismatched_targets
    simp [hc, hmsf, hnn]
  unfold check_contracts
  rw [hsetup]
  simp only [List.map_cons, List.map_nil, hnorm, hinc, hcm]
  rfl

/-- Witness for C2 (amended): the concrete scenario instances. -/
theorem C2_smart_scenario_mismatch_witness :
    smart_mode_setup nodeC2 deriveC2 artifactsC2 true ssC2 none =
      Except.ok (["0xc0ffee"], ["/project/Foo.sol"]) := by
  have h := (C2_smart_scenario_mismatch nodeC2 deriveC2 artifactsC2 (fun _ => false)
    ssC2 txC2 ⟨some "/project/Foo.sol", some "Foo"⟩ "/project/Foo.sol"
    rfl (by decide) rfl rfl rfl rfl (by decide) rfl).1
  exact h
